import Mathlib
/-!
Verification of the cloud session orchestration subsystem of vibe-server.

The definitions below are a shallow embedding of the TypeScript sources:
  - `sources/app/cloud/endpointRegistry.ts` (`EndpointRegistry`)
  - `cloudSessionManager.ts` (`CloudSessionManager`, Socket.IO handlers)
  - the cloud runner (`CloudRunner`)

JavaScript `Map`s are modelled as insertion-ordered association lists
(`SMap`), `Set`s as duplicate-free lists in insertion order, `Date`
timestamps as natural numbers supplied by the caller (`now` arguments),
thrown exceptions as `Except`, and `socket.emit`/`io.to(...).emit` calls
as explicit lists of `Event` values returned next to the new state.
-/

namespace VibeServer

/-- Insertion-ordered string-keyed map, mirroring a JavaScript `Map`:
`set` overwrites in place when the key is present (keeping its position)
and appends otherwise; `del` removes the entry for the key (keys are
unique for maps built by `set`/`del`, so removing every match equals
`Map.delete`). -/
def SMap (α : Type) : Type := List (String × α)

namespace SMap

/-- The empty map (`new Map()`). -/
def empty {α : Type} : SMap α := []

/-- `Map.get`: the value stored at `k`, if any. -/
def get {α : Type} : SMap α → String → Option α
  | [], _ => none
  | (k', v) :: rest, k => if k' = k then some v else get rest k

/-- `Map.set`: overwrite in place, or append a new entry. -/
def set {α : Type} : SMap α → String → α → SMap α
  | [], k, v => [(k, v)]
  | (k', v') :: rest, k, v =>
      if k' = k then (k', v) :: rest else (k', v') :: set rest k v

/-- `Map.delete`: remove the entry for `k`. -/
def del {α : Type} (m : SMap α) (k : String) : SMap α :=
  m.filter (fun kv => !(kv.1 == k))

/-- `Map.size`. -/
def size {α : Type} (m : SMap α) : Nat := m.length

/-- `Array.from(map.values())`, in insertion order. -/
def values {α : Type} (m : SMap α) : List α := m.map Prod.snd

theorem get_set_self {α : Type} (m : SMap α) (k : String) (v : α) :
    (m.set k v).get k = some v := by
  induction m with
  | nil => simp [set, get]
  | cons kv rest ih =>
      by_cases h : kv.1 = k
      · simp [set, get, h]
      · simp [set, get, h, ih]

theorem get_set_ne {α : Type} (m : SMap α) (k k' : String) (v : α) (h : k ≠ k') :
    (m.set k v).get k' = m.get k' := by
  induction m with
  | nil => simp [set, get, h]
  | cons kv rest ih =>
      by_cases hk : kv.1 = k
      · simp [set, get, hk, h]
      · simp [set, get, hk, ih]

theorem isSome_get_set {α : Type} (m : SMap α) (k k' : String) (v : α)
    (h : (m.get k').isSome) : ((m.set k v).get k').isSome := by
  by_cases hk : k = k'
  · subst hk; simp [get_set_self]
  · rwa [get_set_ne m k k' v hk]

theorem length_le_set {α : Type} (m : SMap α) (k : String) (v : α) :
    m.length ≤ (m.set k v).length := by
  induction m with
  | nil => simp [set]
  | cons kv rest ih =>
      by_cases h : kv.1 = k
      · simp [set, h]
      · simpa [set, h] using ih

theorem get_del_self {α : Type} (m : SMap α) (k : String) :
    (m.del k).get k = none := by
  induction m with
  | nil => rfl
  | cons kv rest ih =>
      simp only [del, List.filter_cons] at ih ⊢
      by_cases h : kv.1 = k
      · simp [h, ih]
      · simp [h, get, ih]

end SMap

/-- A JavaScript `Set` of session ids, as a duplicate-free list in
insertion order. `Set.add` is a no-op when the element is present. -/
def setAdd (s : List String) (x : String) : List String :=
  if s.contains x then s else s ++ [x]

/-- `Set.delete`: remove the element (unique, so a filter suffices). -/
def setDel (s : List String) (x : String) : List String :=
  s.filter (fun y => !(y == x))

/-- Endpoint status union type of `e2bProvider.ts`. -/
inductive EndpointStatus : Type
  | spawning
  | online
  | offline
  | error
  deriving DecidableEq, Repr

/-- Session status union type of `CloudSession` in `cloudSessionManager.ts`. -/
inductive SessionStatus : Type
  | pending
  | starting
  | running
  | ended
  | error
  deriving DecidableEq, Repr

/-- `capabilities` as in `EndpointRegistration` / `CloudEndpoint`. -/
structure Capabilities where
  maxSessions : Nat
  supportedAgents : List String
  deriving DecidableEq, Repr

/-- `CloudEndpoint` of `e2bProvider.ts`. The opaque extra metadata fields
(`Record<string, any>`) are omitted; `spawnedAt`/`lastSeen` are kept. -/
structure CloudEndpoint where
  id : String
  sandboxId : String
  status : EndpointStatus
  capabilities : Capabilities
  spawnedAt : Nat
  lastSeen : Option Nat
  deriving DecidableEq, Repr

/-- `EndpointRegistration` of `endpointRegistry.ts` (`type` is renamed
`etype`; the opaque `metadata` record is omitted). -/
structure EndpointRegistration where
  endpointId : String
  etype : String
  capabilities : Capabilities
  deriving DecidableEq, Repr

/-- `SessionAssignment` of `endpointRegistry.ts`. -/
structure SessionAssignment where
  endpointId : String
  sessionId : String
  assignedAt : Nat
  deriving DecidableEq, Repr

/-- Models `registration.endpointId.replace('e2b-', '')`. Generated
endpoint ids have the shape `e2b-<sandboxId>`, where removing the first
occurrence of `e2b-` equals dropping the four-character leading tag. -/
def stripE2b (s : String) : String :=
  match s.toList with
  | 'e' :: '2' :: 'b' :: '-' :: rest => String.mk rest
  | _ => s

/-- The three maps owned by `EndpointRegistry`. -/
structure EndpointRegistry where
  endpoints : SMap CloudEndpoint
  sessionAssignments : SMap SessionAssignment
  endpointSessions : SMap (List String)

/-- `new EndpointRegistry()`. -/
def EndpointRegistry.empty : EndpointRegistry :=
  { endpoints := SMap.empty
    sessionAssignments := SMap.empty
    endpointSessions := SMap.empty }

/-- The `CloudEndpoint` record built inside `registerEndpoint`. -/
def endpointOfRegistration (reg : EndpointRegistration) (now : Nat) : CloudEndpoint :=
  { id := reg.endpointId
    sandboxId := stripE2b reg.endpointId
    status := EndpointStatus.online
    capabilities := reg.capabilities
    spawnedAt := now
    lastSeen := some now }

/-- `EndpointRegistry.registerEndpoint`: unconditionally overwrites the
endpoint entry and resets its session set to empty. -/
def EndpointRegistry.registerEndpoint (r : EndpointRegistry)
    (reg : EndpointRegistration) (now : Nat) : EndpointRegistry :=
  { r with
    endpoints := r.endpoints.set reg.endpointId (endpointOfRegistration reg now)
    endpointSessions := r.endpointSessions.set reg.endpointId [] }

/-- `EndpointRegistry.unregisterEndpoint`. -/
def EndpointRegistry.unregisterEndpoint (r : EndpointRegistry)
    (endpointId : String) : EndpointRegistry :=
  let assignments :=
    match r.endpointSessions.get endpointId with
    | some sessions => sessions.foldl (fun m sid => m.del sid) r.sessionAssignments
    | none => r.sessionAssignments
  { endpoints := r.endpoints.del endpointId
    sessionAssignments := assignments
    endpointSessions := r.endpointSessions.del endpointId }

/-- `EndpointRegistry.updateLastSeen` (heartbeat). -/
def EndpointRegistry.updateLastSeen (r : EndpointRegistry)
    (endpointId : String) (now : Nat) : EndpointRegistry :=
  match r.endpoints.get endpointId with
  | some e =>
      { r with endpoints := r.endpoints.set endpointId { e with lastSeen := some now } }
  | none => r

/-- `this.endpointSessions.get(id)?.size || 0`: the number of sessions
currently assigned to an endpoint. -/
def EndpointRegistry.sessionCount (r : EndpointRegistry) (endpointId : String) : Nat :=
  match r.endpointSessions.get endpointId with
  | some sessions => sessions.length
  | none => 0

/-- The filter predicate of `findAvailableEndpoint`: online, supports the
agent type, and has spare capacity. -/
def eligibleFilter (r : EndpointRegistry) (agentType : String)
    (e : CloudEndpoint) : Bool :=
  (e.status == EndpointStatus.online)
    && e.capabilities.supportedAgents.contains agentType
    && decide (r.sessionCount e.id < e.capabilities.maxSessions)

/-- The `availableEndpoints` list built inside `findAvailableEndpoint`. -/
def EndpointRegistry.availableEndpoints (r : EndpointRegistry)
    (agentType : String) : List CloudEndpoint :=
  r.endpoints.values.filter (eligibleFilter r agentType)

/-- Folding for the head of the stable ascending sort by session count:
JavaScript `sort` is stable and the code takes element `[0]`, i.e. the
first element attaining the minimal load (strict `<` keeps the earlier
endpoint on ties). -/
def pickLeastLoaded (r : EndpointRegistry) :
    CloudEndpoint → List CloudEndpoint → CloudEndpoint
  | best, [] => best
  | best, x :: xs =>
      pickLeastLoaded r (if r.sessionCount x.id < r.sessionCount best.id then x else best) xs

/-- `EndpointRegistry.findAvailableEndpoint` (default agent type is
`claude` in the source). -/
def EndpointRegistry.findAvailableEndpoint (r : EndpointRegistry)
    (agentType : String) : Option CloudEndpoint :=
  match r.availableEndpoints agentType with
  | [] => none
  | e :: rest => some (pickLeastLoaded r e rest)

/-- `EndpointRegistry.assignSession`: records the assignment without any
capacity check, and adds the session to the endpoint set when the
endpoint is registered. Returns the assignment like the source does. -/
def EndpointRegistry.assignSession (r : EndpointRegistry)
    (sessionId endpointId : String) (now : Nat) :
    EndpointRegistry × SessionAssignment :=
  let assignment : SessionAssignment :=
    { endpointId := endpointId, sessionId := sessionId, assignedAt := now }
  let newAssignments := r.sessionAssignments.set sessionId assignment
  let newEndpointSessions :=
    match r.endpointSessions.get endpointId with
    | some sessions => r.endpointSessions.set endpointId (setAdd sessions sessionId)
    | none => r.endpointSessions
  ({ r with
      sessionAssignments := newAssignments
      endpointSessions := newEndpointSessions }, assignment)

/-- `EndpointRegistry.unassignSession`. -/
def EndpointRegistry.unassignSession (r : EndpointRegistry)
    (sessionId : String) : EndpointRegistry :=
  match r.sessionAssignments.get sessionId with
  | some assignment =>
      let newEndpointSessions :=
        match r.endpointSessions.get assignment.endpointId with
        | some sessions =>
            r.endpointSessions.set assignment.endpointId (setDel sessions sessionId)
        | none => r.endpointSessions
      { r with
          sessionAssignments := r.sessionAssignments.del sessionId
          endpointSessions := newEndpointSessions }
  | none => r

/-- `EndpointRegistry.getSessionAssignment`. -/
def EndpointRegistry.getSessionAssignment (r : EndpointRegistry)
    (sessionId : String) : Option SessionAssignment :=
  r.sessionAssignments.get sessionId

/-- `EndpointRegistry.getAllEndpoints`. -/
def EndpointRegistry.getAllEndpoints (r : EndpointRegistry) : List CloudEndpoint :=
  r.endpoints.values

/-- `EndpointRegistry.getEndpoint`. -/
def EndpointRegistry.getEndpoint (r : EndpointRegistry)
    (endpointId : String) : Option CloudEndpoint :=
  r.endpoints.get endpointId

/-- Return value of `EndpointRegistry.getStats` (`utilization` is the
floating-point percentage, modelled as a rational). -/
structure RegistryStats where
  totalEndpoints : Nat
  onlineEndpoints : Nat
  totalSessions : Nat
  capacity : Nat
  utilization : ℚ

/-- `EndpointRegistry.getStats`. -/
def EndpointRegistry.getStats (r : EndpointRegistry) : RegistryStats :=
  let endpoints := r.endpoints.values
  let onlineEndpoints := endpoints.filter (fun e => e.status == EndpointStatus.online)
  let totalCapacity := onlineEndpoints.foldl (fun sum e => sum + e.capabilities.maxSessions) 0
  let totalSessions := r.sessionAssignments.size
  { totalEndpoints := endpoints.length
    onlineEndpoints := onlineEndpoints.length
    totalSessions := totalSessions
    capacity := totalCapacity
    utilization := if totalCapacity > 0 then (totalSessions : ℚ) / totalCapacity * 100 else 0 }

/-- Session options stored on a `CloudSession` (`options` field). -/
structure SessionOptions where
  agentType : String
  workingDirectory : Option String
  initialMessage : Option String
  deriving DecidableEq, Repr

/-- `CloudSession` of `cloudSessionManager.ts`. -/
structure CloudSession where
  sessionId : String
  userId : String
  endpointId : String
  status : SessionStatus
  createdAt : Nat
  startedAt : Option Nat
  endedAt : Option Nat
  options : Option SessionOptions
  deriving DecidableEq, Repr

/-- `CreateCloudSessionOptions` of `cloudSessionManager.ts`. -/
structure CreateCloudSessionOptions where
  userId : String
  sessionId : Option String
  workingDirectory : Option String
  initialMessage : Option String
  agentType : Option String
  deriving DecidableEq, Repr

/-- Observable effects: every `socket.emit` / `io.to(room).emit` call and
`socket.join` performed by the server handlers or by the runner. -/
inductive Event : Type
  | newSessionUpdate (userId sessionId : String)
  | sessionStart (endpointId sessionId agentType : String)
      (workingDirectory initialMessage : Option String)
  | errorMsg (message : String)
  | joinRoom (room : String)
  | endpointRegistered (endpointId : String)
  | sessionStatus (sessionId statusText : String)
  | sessionStarted (sessionId endpointId : String)
  | sessionEnded (sessionId endpointId : String)
  | sessionError (sessionId message : String)
  | messageSend (endpointId sessionId : String)
  deriving DecidableEq, Repr

/-- Mutable state of `CloudSessionManager` (`io` is modelled by the flag
`ioConnected`; the E2B provider is external, its `spawnEndpoint` outcome
is passed in as an `Except` argument where needed). -/
structure CloudSessionManager where
  registry : EndpointRegistry
  sessions : SMap CloudSession
  pendingEndpoints : SMap String
  ioConnected : Bool

/-- `CloudSessionManager.startSessionOnEndpoint`: when the session exists
and a Socket.IO server is attached, emit `session:start` to the endpoint
room and move the session to `starting`. -/
def CloudSessionManager.startSessionOnEndpoint (m : CloudSessionManager)
    (sessionId : String) (options : CreateCloudSessionOptions) :
    CloudSessionManager × List Event :=
  match m.sessions.get sessionId with
  | none => (m, [])
  | some session =>
      if m.ioConnected then
        ({ m with sessions :=
            m.sessions.set sessionId { session with status := SessionStatus.starting } },
         [Event.sessionStart session.endpointId sessionId (options.agentType.getD "claude")
            options.workingDirectory options.initialMessage])
      else (m, [])

/-- The code of `createCloudSession` after an endpoint has been obtained:
persist the durable record (external, represented by the given
`dbSessionId`), emit the new-session update, create the in-memory
session as `pending`, assign it, and start it immediately when the
endpoint is registered online. The source returns the session object
stored in the map (mutated in place by `startSessionOnEndpoint`), hence
the final lookup. -/
def CloudSessionManager.createCloudSessionRest (m : CloudSessionManager)
    (options : CreateCloudSessionOptions) (endpoint : CloudEndpoint)
    (dbSessionId : String) (now : Nat) :
    CloudSessionManager × (CloudSession × List Event) :=
  let notifyEv := Event.newSessionUpdate options.userId dbSessionId
  let session : CloudSession :=
    { sessionId := dbSessionId
      userId := options.userId
      endpointId := endpoint.id
      status := SessionStatus.pending
      createdAt := now
      startedAt := none
      endedAt := none
      options := some
        { agentType := options.agentType.getD "claude"
          workingDirectory := options.workingDirectory
          initialMessage := options.initialMessage } }
  let m1 : CloudSessionManager := { m with sessions := m.sessions.set dbSessionId session }
  let m2 : CloudSessionManager :=
    { m1 with registry := (m1.registry.assignSession dbSessionId endpoint.id now).1 }
  match m2.registry.getEndpoint endpoint.id with
  | some epInfo =>
      if epInfo.status == EndpointStatus.online && m2.ioConnected then
        let res := m2.startSessionOnEndpoint dbSessionId options
        (res.1, ((res.1.sessions.get dbSessionId).getD session, notifyEv :: res.2))
      else (m2, (session, [notifyEv]))
  | none => (m2, (session, [notifyEv]))

/-- `CloudSessionManager.createCloudSession`. `spawnResult` is the
behaviour of `e2bProvider.spawnEndpoint` (consulted only when no
registered endpoint is available); `authToken` the token generated by
`generateAuthToken`; `dbSessionId` the id of the durable record created
by `db.session.create`. A `spawnEndpoint` failure aborts the call before
any in-memory mutation, so the unchanged manager is returned with the
error. -/
def CloudSessionManager.createCloudSession (m : CloudSessionManager)
    (options : CreateCloudSessionOptions)
    (spawnResult : Except String CloudEndpoint)
    (authToken : String) (dbSessionId : String) (now : Nat) :
    CloudSessionManager × Except String (CloudSession × List Event) :=
  match m.registry.findAvailableEndpoint (options.agentType.getD "claude") with
  | some endpoint =>
      let res := m.createCloudSessionRest options endpoint dbSessionId now
      (res.1, Except.ok res.2)
  | none =>
      match spawnResult with
      | Except.error e => (m, Except.error e)
      | Except.ok endpoint =>
          let m1 : CloudSessionManager :=
            { m with pendingEndpoints := m.pendingEndpoints.set endpoint.id authToken }
          let res := m1.createCloudSessionRest options endpoint dbSessionId now
          (res.1, Except.ok res.2)

/-- `CloudSessionManager.startPendingSessionsForEndpoint`: emit
`session:start` for every session of this endpoint still `pending`.
The source only emits; it does not change any session status. -/
def CloudSessionManager.startPendingSessionsForEndpoint (m : CloudSessionManager)
    (endpointId : String) : List Event :=
  let pendingSessions := m.sessions.values.filter
    (fun s => s.endpointId == endpointId && s.status == SessionStatus.pending)
  pendingSessions.filterMap (fun s =>
    if m.ioConnected then
      match s.options with
      | some o =>
          some (Event.sessionStart endpointId s.sessionId o.agentType
            o.workingDirectory o.initialMessage)
      | none => none
    else none)

/-- `CloudSessionManager.sessionStarted`: unconditionally moves any known
session to `running` (no transition check in the source). -/
def CloudSessionManager.sessionStarted (m : CloudSessionManager)
    (sessionId : String) (now : Nat) : CloudSessionManager :=
  match m.sessions.get sessionId with
  | some session =>
      { m with
        sessions := m.sessions.set sessionId
            ({ session with status := SessionStatus.running, startedAt := some now }) }
  | none => m

/-- `CloudSessionManager.sessionEnded`: set `ended`/`endedAt`, then
unassign. (`cleanupIdleEndpoints` only logs; it mutates nothing.) -/
def CloudSessionManager.sessionEnded (m : CloudSessionManager)
    (sessionId : String) (now : Nat) : CloudSessionManager :=
  match m.sessions.get sessionId with
  | some session =>
      let m1 : CloudSessionManager :=
        { m with
          sessions := m.sessions.set sessionId
              ({ session with status := SessionStatus.ended, endedAt := some now }) }
      { m1 with registry := m1.registry.unassignSession sessionId }
  | none => m

/-- `CloudSessionManager.sessionError`: set `error`/`endedAt`, then
unassign. -/
def CloudSessionManager.sessionError (m : CloudSessionManager)
    (sessionId : String) (now : Nat) : CloudSessionManager :=
  match m.sessions.get sessionId with
  | some session =>
      let m1 : CloudSessionManager :=
        { m with
          sessions := m.sessions.set sessionId
              ({ session with status := SessionStatus.error, endedAt := some now }) }
      { m1 with registry := m1.registry.unassignSession sessionId }
  | none => m

/-- `CloudSessionManager.validateEndpointToken`. `if (expected &&
expected === token)`: an empty stored token is falsy, so it never
validates. -/
def CloudSessionManager.validateEndpointToken (m : CloudSessionManager)
    (endpointId token : String) : Bool :=
  match m.pendingEndpoints.get endpointId with
  | some expected => (expected != "") && (expected == token)
  | none => false

/-- Return value of `CloudSessionManager.getStats`. -/
structure ManagerStats where
  totalSessions : Nat
  activeSessions : Nat
  endpoints : RegistryStats

/-- `CloudSessionManager.getStats`: `totalSessions` counts every entry of
the session map, terminal sessions included. -/
def CloudSessionManager.getStats (m : CloudSessionManager) : ManagerStats :=
  { totalSessions := m.sessions.size
    activeSessions :=
      (m.sessions.values.filter (fun s => s.status == SessionStatus.running)).length
    endpoints := m.registry.getStats }

/-- Payload of the `endpoint:register` socket event (`authToken` may be
absent, and JavaScript treats an empty string as falsy). -/
structure RegisterEventData where
  endpointId : String
  etype : String
  capabilities : Capabilities
  authToken : Option String
  deriving DecidableEq, Repr

/-- JavaScript truthiness of an optional string. -/
def jsTruthy : Option String → Bool
  | none => false
  | some s => s != ""

/-- The `endpoint:register` handler of `setupCloudEndpointHandlers`:
validates the token, but rejects only when the supplied token is truthy
(`!isValid && data.authToken`); otherwise registers, joins the endpoint
room, acks, and emits the deferred `session:start` events. -/
def handleEndpointRegister (m : CloudSessionManager) (data : RegisterEventData)
    (now : Nat) : CloudSessionManager × List Event :=
  let isValid := m.validateEndpointToken data.endpointId (data.authToken.getD "")
  if !isValid && jsTruthy data.authToken then
    (m, [Event.errorMsg "Invalid auth token"])
  else
    let m1 : CloudSessionManager :=
      { m with
        registry := m.registry.registerEndpoint
            ({ endpointId := data.endpointId
               etype := data.etype
               capabilities := data.capabilities }) now }
    (m1, [Event.joinRoom ("endpoint:" ++ data.endpointId),
          Event.endpointRegistered data.endpointId]
      ++ m1.startPendingSessionsForEndpoint data.endpointId)

/-- The `endpoint:unregister` handler. -/
def handleEndpointUnregister (m : CloudSessionManager)
    (endpointId : String) : CloudSessionManager :=
  { m with registry := m.registry.unregisterEndpoint endpointId }

/-- The `session:started` handler: update the manager and notify the
mobile client in the session room. -/
def handleSessionStarted (m : CloudSessionManager) (sessionId : String)
    (now : Nat) : CloudSessionManager × List Event :=
  (m.sessionStarted sessionId now, [Event.sessionStatus sessionId "running"])

/-- The `session:ended` handler. -/
def handleSessionEnded (m : CloudSessionManager) (sessionId : String)
    (now : Nat) : CloudSessionManager × List Event :=
  (m.sessionEnded sessionId now, [Event.sessionStatus sessionId "ended"])

/-- The `session:error` handler. -/
def handleSessionError (m : CloudSessionManager) (sessionId : String)
    (now : Nat) : CloudSessionManager × List Event :=
  (m.sessionError sessionId now, [Event.sessionError sessionId "agent error"])

/-- The `endpoint:heartbeat` handler. -/
def handleHeartbeat (m : CloudSessionManager) (endpointId : String)
    (now : Nat) : CloudSessionManager :=
  { m with registry := m.registry.updateLastSeen endpointId now }

/-- Per-session status on the runner side (`Session` in the runner). -/
inductive RunnerStatus : Type
  | starting
  | running
  | ended
  | error
  deriving DecidableEq, Repr

/-- The runner's local `Session` record (`process` handle modelled by the
flag `hasProcess`). -/
structure RunnerSession where
  sessionId : String
  hasProcess : Bool
  status : RunnerStatus
  agentType : String
  workingDirectory : String
  deriving DecidableEq, Repr

/-- Payload of the `session:start` event as received by the runner. -/
structure SessionStartData where
  sessionId : String
  agentType : String
  workingDirectory : Option String
  initialMessage : Option String
  deriving DecidableEq, Repr

/-- Mutable state of `CloudRunner`. -/
structure CloudRunner where
  endpointId : String
  maxConcurrentSessions : Nat
  activeSessions : SMap RunnerSession

/-- `CloudRunner.startSession`. The capacity check comes first; only then
is the duplicate-session check made (a silent `return`, no event). On a
fresh id the session is recorded as `starting`, then `spawnAgent` (whose
outcome is the `spawnResult` argument) either confirms the launch
(`running`, emit `session:started`) or fails (entry deleted, emit
`session:error`). -/
def CloudRunner.startSession (r : CloudRunner) (data : SessionStartData)
    (spawnResult : Except String Unit) : CloudRunner × List Event :=
  if r.maxConcurrentSessions ≤ r.activeSessions.size then
    (r, [Event.sessionError data.sessionId "Max concurrent sessions reached"])
  else if (r.activeSessions.get data.sessionId).isSome then
    (r, [])
  else
    let session : RunnerSession :=
      { sessionId := data.sessionId
        hasProcess := false
        status := RunnerStatus.starting
        agentType := data.agentType
        workingDirectory := data.workingDirectory.getD "/home/user" }
    let r1 : CloudRunner :=
      { r with activeSessions := r.activeSessions.set data.sessionId session }
    match spawnResult with
    | Except.ok _ =>
        ({ r1 with
           activeSessions := r1.activeSessions.set data.sessionId
               ({ session with hasProcess := true, status := RunnerStatus.running }) },
         [Event.sessionStarted data.sessionId r.endpointId])
    | Except.error e =>
        ({ r1 with activeSessions := r1.activeSessions.del data.sessionId },
         [Event.sessionError data.sessionId e])

/-- One server-side operation, carrying the external inputs the
corresponding handler consumes (spawn outcome, generated ids, clock). -/
inductive ManagerOp : Type
  | createSession (options : CreateCloudSessionOptions)
      (spawnResult : Except String CloudEndpoint)
      (authToken dbSessionId : String) (now : Nat)
  | register (data : RegisterEventData) (now : Nat)
  | unregister (endpointId : String)
  | started (sessionId : String) (now : Nat)
  | ended (sessionId : String) (now : Nat)
  | errored (sessionId : String) (now : Nat)
  | heartbeat (endpointId : String) (now : Nat)

/-- Apply one operation to the manager state (events discarded). -/
def managerStep (m : CloudSessionManager) : ManagerOp → CloudSessionManager
  | ManagerOp.createSession options spawnResult authToken dbSessionId now =>
      (m.createCloudSession options spawnResult authToken dbSessionId now).1
  | ManagerOp.register data now => (handleEndpointRegister m data now).1
  | ManagerOp.unregister endpointId => handleEndpointUnregister m endpointId
  | ManagerOp.started sessionId now => (handleSessionStarted m sessionId now).1
  | ManagerOp.ended sessionId now => (handleSessionEnded m sessionId now).1
  | ManagerOp.errored sessionId now => (handleSessionError m sessionId now).1
  | ManagerOp.heartbeat endpointId now => handleHeartbeat m endpointId now

/-- Apply a sequence of operations in order. -/
def managerRun (m : CloudSessionManager) : List ManagerOp → CloudSessionManager
  | [] => m
  | op :: ops => managerRun (managerStep m op) ops

/-! Concrete states used by the witnesses and counterexamples below. -/

/-! Concrete states used by witnesses and counterexamples. -/

/-- A manager with no endpoints, sessions, or pending tokens, and an
attached Socket.IO server. -/
def mgrEmpty : CloudSessionManager :=
  { registry := EndpointRegistry.empty
    sessions := SMap.empty
    pendingEndpoints := SMap.empty
    ioConnected := true }

/-- Registration descriptor of an endpoint with no session capacity. -/
def regNoCapacity : EndpointRegistration :=
  { endpointId := "E1"
    etype := "cloud-e2b"
    capabilities := { maxSessions := 0, supportedAgents := ["claude"] } }

/-- Registry obtained by registering a zero-capacity endpoint and then
assigning a session to it anyway. -/
def regOverCapacity : EndpointRegistry :=
  ((EndpointRegistry.empty.registerEndpoint regNoCapacity 0).assignSession "s1" "E1" 1).1

/-- Registration descriptor used by the C8 counterexample. -/
def regTwoSlots : EndpointRegistration :=
  { endpointId := "E1"
    etype := "cloud-e2b"
    capabilities := { maxSessions := 2, supportedAgents := ["claude"] } }

/-- Registry with one endpoint and one assigned session. -/
def regBeforeRereg : EndpointRegistry :=
  ((EndpointRegistry.empty.registerEndpoint regTwoSlots 0).assignSession "s1" "E1" 1).1

/-- The same registry after the endpoint re-registers. -/
def regAfterRereg : EndpointRegistry :=
  regBeforeRereg.registerEndpoint regTwoSlots 2

/-- A session already in the terminal state `ended`. -/
def sessAlreadyEnded : CloudSession :=
  { sessionId := "s1"
    userId := "u1"
    endpointId := "E1"
    status := SessionStatus.ended
    createdAt := 0
    startedAt := some 1
    endedAt := some 2
    options := none }

/-- Manager holding only `sessAlreadyEnded`. -/
def mgrEndedSession : CloudSessionManager :=
  { registry := EndpointRegistry.empty
    sessions := SMap.empty.set "s1" sessAlreadyEnded
    pendingEndpoints := SMap.empty
    ioConnected := true }

/-- Options of the C5 witness call. -/
def optsSpawnFail : CreateCloudSessionOptions :=
  { userId := "u1"
    sessionId := none
    workingDirectory := none
    initialMessage := none
    agentType := some "claude" }

/-- Running session used by the C7 witness. -/
def sessRunning : CloudSession :=
  { sessionId := "s1"
    userId := "u1"
    endpointId := "E1"
    status := SessionStatus.running
    createdAt := 0
    startedAt := some 1
    endedAt := none
    options := none }

/-- Manager with one running session assigned to a registered endpoint. -/
def mgrRunningSession : CloudSessionManager :=
  { registry := ((EndpointRegistry.empty.registerEndpoint regTwoSlots 0).assignSession
      "s1" "E1" 1).1
    sessions := SMap.empty.set "s1" sessRunning
    pendingEndpoints := SMap.empty
    ioConnected := true }

/-- An active runner session. -/
def runnerSess : RunnerSession :=
  { sessionId := "s1"
    hasProcess := true
    status := RunnerStatus.running
    agentType := "claude"
    workingDirectory := "/home/user" }

/-- A runner at its maximum concurrency (1 of 1 slots used). -/
def runnerAtMax : CloudRunner :=
  { endpointId := "E1"
    maxConcurrentSessions := 1
    activeSessions := SMap.empty.set "s1" runnerSess }

/-- A runner below its maximum concurrency (1 of 2 slots used). -/
def runnerBelowMax : CloudRunner :=
  { endpointId := "E1"
    maxConcurrentSessions := 2
    activeSessions := SMap.empty.set "s1" runnerSess }

/-- Duplicate `session:start` payload for the active session. -/
def dupStart : SessionStartData :=
  { sessionId := "s1"
    agentType := "claude"
    workingDirectory := none
    initialMessage := none }

/-- Registration data for the two endpoints of the C6 witness. -/
def regDataE1 : EndpointRegistration :=
  { endpointId := "E1"
    etype := "cloud-e2b"
    capabilities := { maxSessions := 2, supportedAgents := ["claude"] } }

/-- Second registration descriptor for the C6 witness. -/
def regDataE2 : EndpointRegistration :=
  { endpointId := "E2"
    etype := "cloud-e2b"
    capabilities := { maxSessions := 2, supportedAgents := ["claude"] } }

/-- Registry with endpoints E1 (one session) and E2 (idle). -/
def regTwoEndpoints : EndpointRegistry :=
  (((EndpointRegistry.empty.registerEndpoint regDataE1 0).registerEndpoint
      regDataE2 0).assignSession "s1" "E1" 1).1

/-- The registry entry of E1. -/
def epE1 : CloudEndpoint := endpointOfRegistration regDataE1 0

/-- The registry entry of E2. -/
def epE2 : CloudEndpoint := endpointOfRegistration regDataE2 0

/-- Capability record used by the C2 and C4 example states. -/
def capsClaude1 : Capabilities :=
  { maxSessions := 1, supportedAgents := ["claude"] }

/-- Manager holding one pending auth token for endpoint E1. -/
def mgrPendingTok : CloudSessionManager :=
  { registry := EndpointRegistry.empty
    sessions := SMap.empty
    pendingEndpoints := SMap.empty.set "E1" "tok"
    ioConnected := true }

/-- `endpoint:register` payload for E1 with a wrong (non-empty) token. -/
def regDataBadToken : RegisterEventData :=
  { endpointId := "E1"
    etype := "cloud-e2b"
    capabilities := capsClaude1
    authToken := some "bad" }

/-- `endpoint:register` payload for E1 with no token at all. -/
def regDataNoToken : RegisterEventData :=
  { endpointId := "E1"
    etype := "cloud-e2b"
    capabilities := capsClaude1
    authToken := none }

/-- The endpoint returned by the provider in the C4 scenario. -/
def epProvisioned : CloudEndpoint :=
  { id := "E9"
    sandboxId := "9"
    status := EndpointStatus.online
    capabilities := capsClaude1
    spawnedAt := 0
    lastSeen := none }

/-- Plain `createCloudSession` options for the C4 scenario. -/
def optsPlain : CreateCloudSessionOptions :=
  { userId := "u1"
    sessionId := none
    workingDirectory := none
    initialMessage := none
    agentType := none }

/-- `endpoint:register` payload of the provisioned endpoint with its
matching token. -/
def regDataE9 : RegisterEventData :=
  { endpointId := "E9"
    etype := "cloud-e2b"
    capabilities := capsClaude1
    authToken := some "tok9" }

/-- The manager state right after the C4 `createCloudSession` call. -/
def mgrAfterCreate : CloudSessionManager :=
  (mgrEmpty.createCloudSession optsPlain (Except.ok epProvisioned) "tok9" "s9" 0).1

/-- One map extends another: no smaller, and every present key stays
present. The session table only ever changes by `set`, so it grows in
this sense under every operation. -/
def smapGrow {α : Type} (a b : SMap α) : Prop :=
  a.size ≤ b.size ∧ ∀ k, (a.get k).isSome → (b.get k).isSome

/-- Operation sequence of the C10 witness: double-end the running
session, then a heartbeat. -/
def opsSeq : List ManagerOp :=
  [ManagerOp.ended "s1" 3, ManagerOp.ended "s1" 4, ManagerOp.heartbeat "E1" 5]

/-! Helper lemmas about `unassignSession`. -/

theorem unassign_get_none (r : EndpointRegistry) (sessionId : String) :
    (r.unassignSession sessionId).sessionAssignments.get sessionId = none := by
  unfold EndpointRegistry.unassignSession
  cases h : r.sessionAssignments.get sessionId with
  | none => simp [h]
  | some a =>
      cases h2 : r.endpointSessions.get a.endpointId <;>
        simp [h2, SMap.get_del_self]

theorem unassign_of_none (r : EndpointRegistry) (sessionId : String)
    (h : r.sessionAssignments.get sessionId = none) :
    r.unassignSession sessionId = r := by
  unfold EndpointRegistry.unassignSession
  rw [h]

/-- C1: the claim says `assignSession` rejects when the endpoint is at
capacity. It does not: assigning to an endpoint whose `maxSessions` is 0
yields an assigned-session count of 1, exceeding the capability. -/
theorem assignSession_overshoots_capacity_cex :
    regOverCapacity.sessionCount "E1" = 1 ∧
    (regOverCapacity.getEndpoint "E1").map (fun e => e.capabilities.maxSessions) = some 0 ∧
    regOverCapacity.getSessionAssignment "s1"
      = some { endpointId := "E1", sessionId := "s1", assignedAt := 1 } := by
  decide

/-- C1 (amended): `assignSession` performs no capacity check at all — for
every registry state it records the assignment, so the per-endpoint
assigned count is bounded only by the callers' prior `findAvailableEndpoint`
checks, not by the registry itself. -/
theorem assignSession_records_unconditionally (r : EndpointRegistry)
    (sessionId endpointId : String) (now : Nat) :
    ((r.assignSession sessionId endpointId now).1).sessionAssignments.get sessionId
      = some { endpointId := endpointId, sessionId := sessionId, assignedAt := now } := by
  simp [EndpointRegistry.assignSession, SMap.get_set_self]

/-- C8: re-registration is not idempotent on the registry state — it
resets the endpoint's assignment set, dropping the recorded session
count from 1 to 0 while the global assignment map still holds the
session. -/
theorem reregister_clears_assignment_set_cex :
    regBeforeRereg.sessionCount "E1" = 1 ∧
    regAfterRereg.sessionCount "E1" = 0 ∧
    (regAfterRereg.getSessionAssignment "s1").isSome = true := by
  decide

/-- C8 (amended): `registerEndpoint` is an unconditional upsert that
always overwrites the endpoint entry and resets its assignment set to
empty — also when the id is already registered — while leaving the
`sessionAssignments` map untouched. -/
theorem registerEndpoint_overwrites (r : EndpointRegistry)
    (reg : EndpointRegistration) (now : Nat) :
    ((r.registerEndpoint reg now).endpoints.get reg.endpointId
        = some (endpointOfRegistration reg now)) ∧
    ((r.registerEndpoint reg now).endpointSessions.get reg.endpointId = some []) ∧
    (r.registerEndpoint reg now).sessionAssignments = r.sessionAssignments := by
  refine ⟨?_, ?_, rfl⟩ <;> simp [EndpointRegistry.registerEndpoint, SMap.get_set_self]

/-- C3: the claim says `sessionStarted` on a session already in `ended`
is rejected with the status unchanged. It is not: the session re-enters
`running`. -/
theorem sessionStarted_reenters_running_cex :
    ((mgrEndedSession.sessionStarted "s1" 9).sessions.get "s1").map CloudSession.status
      = some SessionStatus.running := by
  decide

/-- C3 (amended): the manager performs no transition validation at all —
`sessionStarted` on any known session unconditionally sets `running` and
overwrites `startedAt`, whatever the previous status (and likewise the
`ended`/`error` setters); only unknown ids leave the state unchanged. -/
theorem sessionStarted_unchecked (m : CloudSessionManager) (sessionId : String)
    (now : Nat) (s : CloudSession) (h : m.sessions.get sessionId = some s) :
    (m.sessionStarted sessionId now).sessions.get sessionId
      = some { s with status := SessionStatus.running, startedAt := some now } := by
  simp [CloudSessionManager.sessionStarted, h, SMap.get_set_self]

/-- C3 witness: the amended rule applied to the concrete ended session. -/
theorem sessionStarted_unchecked_witness :
    (mgrEndedSession.sessionStarted "s1" 9).sessions.get "s1"
      = some { sessAlreadyEnded with
               status := SessionStatus.running, startedAt := some 9 } :=
  sessionStarted_unchecked mgrEndedSession "s1" 9 sessAlreadyEnded (by decide)

/-- C5: when no endpoint is available and the provider's spawn throws,
`createCloudSession` surfaces exactly that error and the manager state is
bitwise unchanged — no in-memory session, no assignment, no pending auth
token. (In the source the spawn `await` also precedes the durable
`db.session.create` call, so no durable record is created either.) -/
theorem createCloudSession_spawn_failure_pure (m : CloudSessionManager)
    (options : CreateCloudSessionOptions) (e : String)
    (authToken dbSessionId : String) (now : Nat)
    (h : m.registry.findAvailableEndpoint (options.agentType.getD "claude") = none) :
    m.createCloudSession options (Except.error e) authToken dbSessionId now
      = (m, Except.error e) := by
  simp [CloudSessionManager.createCloudSession, h]

/-- C5 witness: spawn failure on the empty manager. -/
theorem createCloudSession_spawn_failure_witness :
    mgrEmpty.createCloudSession optsSpawnFail (Except.error "boom") "tok" "s1" 0
      = (mgrEmpty, Except.error "boom") :=
  createCloudSession_spawn_failure_pure mgrEmpty optsSpawnFail "boom" "tok" "s1" 0 (by decide)

/-- C7: the claim says `sessionError` on an already-terminal session is a
no-op leaving the status unchanged. It is not: on a session already in
`ended` it flips the status to `error` (and refreshes `endedAt`). -/
theorem sessionError_flips_terminal_cex :
    ((mgrEndedSession.sessionError "s1" 6).sessions.get "s1").map CloudSession.status
      = some SessionStatus.error := by
  decide

/-- C7 (amended): a second `sessionEnded` for the same session never
throws, leaves the registry — in particular the endpoint's
assigned-session set — unchanged (the first call already removed the
assignment, so the capacity is not decremented twice), and keeps the
status `ended`; it does however overwrite `endedAt` with the new time,
and `sessionError` on an `ended` session changes the status to `error`
(see the counterexample). -/
theorem sessionEnded_second_call (m : CloudSessionManager) (sid : String)
    (t1 t2 : Nat) (s : CloudSession) (h : m.sessions.get sid = some s) :
    ((m.sessionEnded sid t1).sessionEnded sid t2).registry
        = (m.sessionEnded sid t1).registry ∧
    ((m.sessionEnded sid t1).sessionEnded sid t2).sessions.get sid
        = some { s with status := SessionStatus.ended, endedAt := some t2 } := by
  have h1 : (m.sessionEnded sid t1).sessions.get sid
      = some { s with status := SessionStatus.ended, endedAt := some t1 } := by
    simp [CloudSessionManager.sessionEnded, h, SMap.get_set_self]
  have hreg : (m.sessionEnded sid t1).registry = m.registry.unassignSession sid := by
    simp [CloudSessionManager.sessionEnded, h]
  constructor
  · conv_lhs => rw [CloudSessionManager.sessionEnded, h1]
    simp only
    rw [hreg]
    exact unassign_of_none _ _ (unassign_get_none _ _)
  · conv_lhs => rw [CloudSessionManager.sessionEnded, h1]
    simp [SMap.get_set_self]

/-- C7 witness: the double-`sessionEnded` rule at the concrete manager. -/
theorem sessionEnded_second_call_witness :
    ((mgrRunningSession.sessionEnded "s1" 5).sessionEnded "s1" 6).registry
        = (mgrRunningSession.sessionEnded "s1" 5).registry ∧
    ((mgrRunningSession.sessionEnded "s1" 5).sessionEnded "s1" 6).sessions.get "s1"
        = some { sessRunning with status := SessionStatus.ended, endedAt := some 6 } :=
  sessionEnded_second_call mgrRunningSession "s1" 5 6 sessRunning (by decide)

/-- C9: the claim says a duplicate start for an already-active id is a
no-op with no error even at maximum concurrency. It is not: the capacity
check runs first, so at maximum concurrency the duplicate start emits
`session:error`. -/
theorem duplicate_start_at_max_errors_cex :
    (runnerAtMax.startSession dupStart (Except.ok ())).2
      = [Event.sessionError "s1" "Max concurrent sessions reached"] ∧
    (runnerAtMax.activeSessions.get "s1").isSome = true := by
  decide

/-- C9 (amended): for an already-active session id, `session:start` is an
idempotent silent no-op (no event, no spawn, state unchanged) only while
the runner is below its maximum concurrency; at maximum concurrency the
capacity check fires first and emits `session:error` even for the
duplicate id. -/
theorem startSession_duplicate (r : CloudRunner) (data : SessionStartData)
    (spawnResult : Except String Unit) (s : RunnerSession)
    (h : r.activeSessions.get data.sessionId = some s) :
    (r.activeSessions.size < r.maxConcurrentSessions →
      r.startSession data spawnResult = (r, [])) ∧
    (r.maxConcurrentSessions ≤ r.activeSessions.size →
      r.startSession data spawnResult
        = (r, [Event.sessionError data.sessionId "Max concurrent sessions reached"])) := by
  constructor
  · intro hlt
    simp [CloudRunner.startSession, Nat.not_le.mpr hlt, h]
  · intro hge
    simp [CloudRunner.startSession, hge]

/-- C9 witness: the duplicate start below maximum concurrency. -/
theorem startSession_duplicate_witness :
    runnerBelowMax.startSession dupStart (Except.ok ()) = (runnerBelowMax, []) :=
  (startSession_duplicate runnerBelowMax dupStart (Except.ok ()) runnerSess
    (by decide)).1 (by decide)

/-! Properties of `pickLeastLoaded`, i.e. of the head of the stable sort
in `findAvailableEndpoint`. -/

theorem pickLeastLoaded_mem (r : EndpointRegistry) :
    ∀ (l : List CloudEndpoint) (best : CloudEndpoint),
      pickLeastLoaded r best l ∈ best :: l
  | [], _ => List.mem_singleton.mpr rfl
  | x :: xs, best => by
      have h := pickLeastLoaded_mem r xs
        (if r.sessionCount x.id < r.sessionCount best.id then x else best)
      simp only [pickLeastLoaded]
      rcases List.mem_cons.mp h with h1 | h1
      · rw [h1]
        by_cases hc : r.sessionCount x.id < r.sessionCount best.id
        · simp [hc]
        · simp [hc]
      · exact List.mem_cons.mpr (Or.inr (List.mem_cons.mpr (Or.inr h1)))

theorem pickLeastLoaded_le (r : EndpointRegistry) :
    ∀ (l : List CloudEndpoint) (best y : CloudEndpoint), y ∈ best :: l →
      r.sessionCount (pickLeastLoaded r best l).id ≤ r.sessionCount y.id
  | [], best, y, hy => by
      have hyb : y = best := by simpa using hy
      subst hyb
      exact Nat.le_refl _
  | x :: xs, best, y, hy => by
      simp only [pickLeastLoaded]
      have hpb :
          r.sessionCount (pickLeastLoaded r
              (if r.sessionCount x.id < r.sessionCount best.id then x else best) xs).id
            ≤ r.sessionCount
                (if r.sessionCount x.id < r.sessionCount best.id then x else best).id :=
        pickLeastLoaded_le r xs _ _ (List.mem_cons_self _ _)
      rcases List.mem_cons.mp hy with heq | hy1
      · subst heq
        refine Nat.le_trans hpb ?_
        by_cases hc : r.sessionCount x.id < r.sessionCount y.id
        · rw [if_pos hc]; exact Nat.le_of_lt hc
        · rw [if_neg hc]
      · rcases List.mem_cons.mp hy1 with heq | hy2
        · subst heq
          refine Nat.le_trans hpb ?_
          by_cases hc : r.sessionCount y.id < r.sessionCount best.id
          · rw [if_pos hc]
          · rw [if_neg hc]; exact Nat.le_of_not_lt hc
        · exact pickLeastLoaded_le r xs _ y (List.mem_cons.mpr (Or.inr hy2))

theorem pickLeastLoaded_first (r : EndpointRegistry) :
    ∀ (l : List CloudEndpoint) (best : CloudEndpoint),
      (best :: l).find?
          (fun x => decide (r.sessionCount x.id
            ≤ r.sessionCount (pickLeastLoaded r best l).id))
        = some (pickLeastLoaded r best l)
  | [], best => by simp [pickLeastLoaded]
  | x :: xs, best => by
      simp only [pickLeastLoaded]
      by_cases hc : r.sessionCount x.id < r.sessionCount best.id
      · simp only [if_pos hc]
        have ih := pickLeastLoaded_first r xs x
        have hRx : r.sessionCount (pickLeastLoaded r x xs).id ≤ r.sessionCount x.id :=
          pickLeastLoaded_le r xs x x (List.mem_cons_self _ _)
        have hpbest :
            ¬ (r.sessionCount best.id ≤ r.sessionCount (pickLeastLoaded r x xs).id) :=
          Nat.not_le.mpr (Nat.lt_of_le_of_lt hRx hc)
        rw [List.find?_cons_of_neg _ (by simpa using hpbest)]
        exact ih
      · simp only [if_neg hc]
        have ih := pickLeastLoaded_first r xs best
        by_cases hpb : r.sessionCount best.id ≤ r.sessionCount (pickLeastLoaded r best xs).id
        · rw [List.find?_cons_of_pos _ (by simpa using hpb)] at ih ⊢
          exact ih
        · rw [List.find?_cons_of_neg _ (by simpa using hpb)] at ih
          have hRbest :
              r.sessionCount (pickLeastLoaded r best xs).id < r.sessionCount best.id :=
            Nat.lt_of_not_le hpb
          have hpx :
              ¬ (r.sessionCount x.id ≤ r.sessionCount (pickLeastLoaded r best xs).id) :=
            Nat.not_le.mpr (Nat.lt_of_lt_of_le hRbest (Nat.le_of_not_lt hc))
          rw [List.find?_cons_of_neg _ (by simpa using hpb),
            List.find?_cons_of_neg _ (by simpa using hpx)]
          exact ih

/-- C6: `findAvailableEndpoint` returns `none` exactly when no endpoint
passes the eligibility filter (online, supports the agent type, spare
capacity); a returned endpoint is eligible, carries the minimal assigned
session count among the eligible endpoints, and is the first eligible
endpoint in stable registration order whose count is within that
minimum — the deterministic tie-break of the stable sort. -/
theorem findAvailableEndpoint_correct (r : EndpointRegistry) (a : String) :
    (r.findAvailableEndpoint a = none ↔ r.availableEndpoints a = []) ∧
    (∀ e, r.findAvailableEndpoint a = some e →
      e ∈ r.availableEndpoints a ∧
      e.status = EndpointStatus.online ∧
      e.capabilities.supportedAgents.contains a = true ∧
      r.sessionCount e.id < e.capabilities.maxSessions ∧
      (∀ x ∈ r.availableEndpoints a, r.sessionCount e.id ≤ r.sessionCount x.id) ∧
      (r.availableEndpoints a).find?
          (fun x => decide (r.sessionCount x.id ≤ r.sessionCount e.id))
        = some e) := by
  constructor
  · unfold EndpointRegistry.findAvailableEndpoint
    cases h : r.availableEndpoints a <;> simp [h]
  · intro e he
    unfold EndpointRegistry.findAvailableEndpoint at he
    cases h : r.availableEndpoints a with
    | nil => rw [h] at he; cases he
    | cons hd tl =>
        rw [h] at he
        have hpick : pickLeastLoaded r hd tl = e := by
          injection he
        have hmem : e ∈ hd :: tl := by
          rw [← hpick]; exact pickLeastLoaded_mem r tl hd
        have hmemavail : e ∈ r.availableEndpoints a := by rw [h]; exact hmem
        have helig : eligibleFilter r a e = true := by
          have := List.mem_filter.mp
            (by simpa [EndpointRegistry.availableEndpoints] using hmemavail)
          exact this.2
        have helig3 := helig
        unfold eligibleFilter at helig3
        simp only [Bool.and_eq_true, beq_iff_eq, decide_eq_true_eq] at helig3
        refine ⟨hmem, helig3.1.1, helig3.1.2, helig3.2, ?_, ?_⟩
        · intro x hx
          rw [← hpick]
          exact pickLeastLoaded_le r tl hd x hx
        · rw [← hpick]
          exact pickLeastLoaded_first r tl hd

/-- C6 witness: on the concrete registry the placement returns the idle
endpoint E2, which is online and carries no more load than E1. -/
theorem findAvailableEndpoint_correct_witness :
    epE2.status = EndpointStatus.online ∧
    regTwoEndpoints.sessionCount epE2.id ≤ regTwoEndpoints.sessionCount epE1.id :=
  let h := (findAvailableEndpoint_correct regTwoEndpoints "claude").2 epE2 (by decide)
  ⟨h.2.1, h.2.2.2.2.1 epE1 (by decide)⟩

/-- C2: the claim says a registration whose token does not match — the
missing/empty token included — is rejected before any mutation. It is
not: the reject branch requires a truthy token (`!isValid &&
data.authToken`), so registering with no token against a pending token
`tok` succeeds, mutates the registry, and joins the endpoint room. -/
theorem register_missing_token_accepted_cex :
    ((handleEndpointRegister mgrPendingTok regDataNoToken 7).1.registry.endpoints.get
        "E1").isSome = true ∧
    Event.joinRoom "endpoint:E1" ∈ (handleEndpointRegister mgrPendingTok regDataNoToken 7).2 ∧
    Event.endpointRegistered "E1" ∈ (handleEndpointRegister mgrPendingTok regDataNoToken 7).2 := by
  decide

/-- C2 (amended): only a truthy (present and non-empty) token that fails
validation is rejected — with an auth error, before any registry
mutation, without joining the room and without starting pending
sessions; a missing or empty token bypasses the check entirely and the
endpoint is registered (see the counterexample). -/
theorem registerHandler_rejects_truthy_bad_token (m : CloudSessionManager)
    (data : RegisterEventData) (now : Nat)
    (htruthy : jsTruthy data.authToken = true)
    (hbad : m.validateEndpointToken data.endpointId (data.authToken.getD "") = false) :
    handleEndpointRegister m data now = (m, [Event.errorMsg "Invalid auth token"]) := by
  simp [handleEndpointRegister, htruthy, hbad]

/-- C2 witness: the wrong-token registration against the concrete
manager is rejected unchanged. -/
theorem registerHandler_rejects_witness :
    handleEndpointRegister mgrPendingTok regDataBadToken 7
      = (mgrPendingTok, [Event.errorMsg "Invalid auth token"]) :=
  registerHandler_rejects_truthy_bad_token mgrPendingTok regDataBadToken 7
    (by decide) (by decide)

/-- C4: the claim says registering the provisioned endpoint transitions
the pending session to `starting`. It does not: `session:start` is
emitted, but `startPendingSessionsForEndpoint` never updates the status,
so the session stays `pending`. -/
theorem deferred_start_stays_pending_cex :
    Event.sessionStart "E9" "s9" "claude" none none
        ∈ (handleEndpointRegister mgrAfterCreate regDataE9 1).2 ∧
    (((handleEndpointRegister mgrAfterCreate regDataE9 1).1).sessions.get "s9").map
        CloudSession.status = some SessionStatus.pending ∧
    ¬ ((((handleEndpointRegister mgrAfterCreate regDataE9 1).1).sessions.get "s9").map
        CloudSession.status = some SessionStatus.starting) := by
  decide

/-- C4 (amended): `createCloudSession` with zero registered endpoints
provisions a new endpoint via the provider and returns the session as
`pending`; when that endpoint then registers with the matching token,
the deferred `session:start` is emitted to it, but the session's status
stays `pending` (it is never moved to `starting` on this path — only a
later `session:started` report moves it, directly to `running`). -/
theorem provisioned_register_emits_start_but_pending (m : CloudSessionManager)
    (options : CreateCloudSessionOptions) (ep : CloudEndpoint)
    (tok dbSessionId : String) (t1 t2 : Nat) (etype : String) (caps : Capabilities)
    (hEp : m.registry.endpoints = [])
    (hS : m.sessions = [])
    (hIo : m.ioConnected = true)
    (hTok : tok ≠ "") :
    (∃ p, (m.createCloudSession options (Except.ok ep) tok dbSessionId t1).2
        = Except.ok p ∧ p.1.status = SessionStatus.pending) ∧
    Event.sessionStart ep.id dbSessionId (options.agentType.getD "claude")
        options.workingDirectory options.initialMessage
      ∈ (handleEndpointRegister
          (m.createCloudSession options (Except.ok ep) tok dbSessionId t1).1
          { endpointId := ep.id, etype := etype, capabilities := caps,
            authToken := some tok } t2).2 ∧
    (((handleEndpointRegister
          (m.createCloudSession options (Except.ok ep) tok dbSessionId t1).1
          { endpointId := ep.id, etype := etype, capabilities := caps,
            authToken := some tok } t2).1).sessions.get dbSessionId).map
        CloudSession.status = some SessionStatus.pending := by
  have hfind : m.registry.findAvailableEndpoint (options.agentType.getD "claude") = none := by
    unfold EndpointRegistry.findAvailableEndpoint EndpointRegistry.availableEndpoints
      SMap.values
    rw [hEp]
    rfl
  have htokeq : (tok == "") = false := beq_eq_false_iff_ne.mpr hTok
  have hcreate : m.createCloudSession options (Except.ok ep) tok dbSessionId t1
      = ({ registry := (m.registry.assignSession dbSessionId ep.id t1).1
           sessions := [(dbSessionId,
             { sessionId := dbSessionId
               userId := options.userId
               endpointId := ep.id
               status := SessionStatus.pending
               createdAt := t1
               startedAt := none
               endedAt := none
               options := some
                 { agentType := options.agentType.getD "claude"
                   workingDirectory := options.workingDirectory
                   initialMessage := options.initialMessage } })]
           pendingEndpoints := m.pendingEndpoints.set ep.id tok
           ioConnected := m.ioConnected },
         Except.ok
           ({ sessionId := dbSessionId
              userId := options.userId
              endpointId := ep.id
              status := SessionStatus.pending
              createdAt := t1
              startedAt := none
              endedAt := none
              options := some
                { agentType := options.agentType.getD "claude"
                  workingDirectory := options.workingDirectory
                  initialMessage := options.initialMessage } },
            [Event.newSessionUpdate options.userId dbSessionId])) := by
    simp only [CloudSessionManager.createCloudSession, hfind,
      CloudSessionManager.createCloudSessionRest, EndpointRegistry.getEndpoint,
      EndpointRegistry.assignSession, hS, hEp, SMap.set, SMap.get]
  rw [hcreate]
  refine ⟨⟨_, rfl, rfl⟩, ?_, ?_⟩
  · simp only [handleEndpointRegister, CloudSessionManager.validateEndpointToken,
      SMap.get_set_self, htokeq, jsTruthy, bne, beq_self_eq_true, Bool.not_false,
      Bool.and_true, Bool.and_false, Bool.not_true, Bool.false_and, if_false,
      CloudSessionManager.startPendingSessionsForEndpoint, SMap.values, hIo,
      List.map_cons, List.map_nil, List.filter, List.filterMap, if_true,
      SessionStatus.pending]
    simp [List.mem_append, CloudSessionManager.startPendingSessionsForEndpoint,
      SMap.values, hIo]
  · simp only [handleEndpointRegister, CloudSessionManager.validateEndpointToken,
      SMap.get_set_self, htokeq, jsTruthy, bne, beq_self_eq_true, Bool.not_false,
      Bool.and_false, Bool.not_true, Bool.false_and, if_false]
    simp [SMap.get]

/-- C4 witness: the amended scenario at the concrete empty manager. -/
theorem provisioned_register_pending_witness :
    Event.sessionStart epProvisioned.id "s9" (optsPlain.agentType.getD "claude")
        optsPlain.workingDirectory optsPlain.initialMessage
      ∈ (handleEndpointRegister
          (mgrEmpty.createCloudSession optsPlain (Except.ok epProvisioned) "tok9" "s9" 0).1
          { endpointId := epProvisioned.id, etype := "cloud-e2b",
            capabilities := capsClaude1, authToken := some "tok9" } 1).2 :=
  ((provisioned_register_emits_start_but_pending mgrEmpty optsPlain epProvisioned
    "tok9" "s9" 0 1 "cloud-e2b" capsClaude1 rfl rfl rfl (by decide)).2).1

theorem smapGrow_refl {α : Type} (a : SMap α) : smapGrow a a :=
  ⟨Nat.le_refl _, fun _ h => h⟩

theorem smapGrow_trans {α : Type} {a b c : SMap α}
    (h1 : smapGrow a b) (h2 : smapGrow b c) : smapGrow a c :=
  ⟨Nat.le_trans h1.1 h2.1, fun k hk => h2.2 k (h1.2 k hk)⟩

theorem smapGrow_set {α : Type} (a : SMap α) (k : String) (v : α) :
    smapGrow a (a.set k v) :=
  ⟨SMap.length_le_set a k v, fun k' h => SMap.isSome_get_set a k k' v h⟩

theorem startSessionOnEndpoint_grow (m : CloudSessionManager) (sid : String)
    (options : CreateCloudSessionOptions) :
    smapGrow m.sessions ((m.startSessionOnEndpoint sid options).1).sessions := by
  unfold CloudSessionManager.startSessionOnEndpoint
  split
  · exact smapGrow_refl _
  · split
    · exact smapGrow_set _ _ _
    · exact smapGrow_refl _

theorem createCloudSessionRest_grow (m : CloudSessionManager)
    (options : CreateCloudSessionOptions) (ep : CloudEndpoint)
    (dbSessionId : String) (now : Nat) :
    smapGrow m.sessions ((m.createCloudSessionRest options ep dbSessionId now).1).sessions := by
  unfold CloudSessionManager.createCloudSessionRest
  dsimp only
  split
  · split
    · refine smapGrow_trans ?_ (startSessionOnEndpoint_grow _ _ _)
      exact smapGrow_set _ _ _
    · exact smapGrow_set _ _ _
  · exact smapGrow_set _ _ _

theorem createCloudSession_grow (m : CloudSessionManager)
    (options : CreateCloudSessionOptions) (spawnResult : Except String CloudEndpoint)
    (authToken dbSessionId : String) (now : Nat) :
    smapGrow m.sessions
      ((m.createCloudSession options spawnResult authToken dbSessionId now).1).sessions := by
  unfold CloudSessionManager.createCloudSession
  dsimp only
  split
  · rename_i endpoint heq
    exact createCloudSessionRest_grow m options endpoint dbSessionId now
  · split
    · exact smapGrow_refl _
    · rename_i endpoint
      exact createCloudSessionRest_grow
        { m with pendingEndpoints := m.pendingEndpoints.set endpoint.id authToken }
        options endpoint dbSessionId now

theorem handleEndpointRegister_sessions_eq (m : CloudSessionManager)
    (data : RegisterEventData) (now : Nat) :
    ((handleEndpointRegister m data now).1).sessions = m.sessions := by
  unfold handleEndpointRegister
  dsimp only
  split <;> rfl

theorem sessionStarted_grow (m : CloudSessionManager) (sid : String) (now : Nat) :
    smapGrow m.sessions (m.sessionStarted sid now).sessions := by
  unfold CloudSessionManager.sessionStarted
  split
  · exact smapGrow_set _ _ _
  · exact smapGrow_refl _

theorem sessionEnded_grow (m : CloudSessionManager) (sid : String) (now : Nat) :
    smapGrow m.sessions (m.sessionEnded sid now).sessions := by
  unfold CloudSessionManager.sessionEnded
  split
  · exact smapGrow_set _ _ _
  · exact smapGrow_refl _

theorem sessionError_grow (m : CloudSessionManager) (sid : String) (now : Nat) :
    smapGrow m.sessions (m.sessionError sid now).sessions := by
  unfold CloudSessionManager.sessionError
  split
  · exact smapGrow_set _ _ _
  · exact smapGrow_refl _

theorem managerStep_grow (m : CloudSessionManager) (op : ManagerOp) :
    smapGrow m.sessions (managerStep m op).sessions := by
  cases op with
  | createSession options spawnResult authToken dbSessionId now =>
      exact createCloudSession_grow m options spawnResult authToken dbSessionId now
  | register data now =>
      rw [show (managerStep m (ManagerOp.register data now)).sessions = m.sessions from
        handleEndpointRegister_sessions_eq m data now]
      exact smapGrow_refl _
  | unregister endpointId => exact smapGrow_refl _
  | started sid now => exact sessionStarted_grow m sid now
  | ended sid now => exact sessionEnded_grow m sid now
  | errored sid now => exact sessionError_grow m sid now
  | heartbeat endpointId now => exact smapGrow_refl _

theorem managerRun_grow (m : CloudSessionManager) (ops : List ManagerOp) :
    smapGrow m.sessions (managerRun m ops).sessions := by
  induction ops generalizing m with
  | nil => exact smapGrow_refl _
  | cons op ops ih =>
      exact smapGrow_trans (managerStep_grow m op) (ih (managerStep m op))

/-- C10: no manager operation ever removes a session from the in-memory
table — every session id present before a sequence of operations is
still present after it, and `getStats().totalSessions`, which counts the
whole table (terminal sessions included), is monotonically
non-decreasing over every operation sequence. -/
theorem totalSessions_monotone (m : CloudSessionManager) (ops : List ManagerOp) :
    m.getStats.totalSessions ≤ (managerRun m ops).getStats.totalSessions ∧
    ∀ sid, (m.sessions.get sid).isSome → ((managerRun m ops).sessions.get sid).isSome :=
  ⟨(managerRun_grow m ops).1, (managerRun_grow m ops).2⟩

/-- C10 witness: the ended session is still in the table afterwards. -/
theorem totalSessions_monotone_witness :
    ((managerRun mgrRunningSession opsSeq).sessions.get "s1").isSome = true :=
  (totalSessions_monotone mgrRunningSession opsSeq).2 "s1" (by decide)

end VibeServer
